import Mathlib

/-!
Verification of the overlap statistics, cache-or-train branching, pac
selection and configuration errors of `src/core/SynthLeader.py`
(class `SynthLeader`).

A pandas dataframe is embedded column-major: a list of
(column name, cell values) pairs, in column order.  `set(df[c])` becomes
`(DataFrame.getCol df c).toFinset`; a raised `ZeroDivisionError` or
`ValueError` becomes `Except.error`.  File-system effects (model loading,
fitting, saving, report caching) are abstracted into result values that
record which action the code takes, with file existence passed in as a
boolean oracle.
-/

/-- A pandas dataframe, column-major: column names paired with cell values. -/
abbrev DataFrame (α : Type) := List (String × List α)

/-- Embeds `df.columns`: the column names in order. -/
def DataFrame.columns {α : Type} (df : DataFrame α) : List String :=
  df.map Prod.fst

/-- Embeds `df[c]` for a column name `c`: the values of the first column so
named, empty when the column is absent. -/
def DataFrame.getCol {α : Type} (df : DataFrame α) (c : String) : List α :=
  (List.lookup c df).getD []

/-- Embeds `df.itertuples(index=False, name=None)`: the rows of the
dataframe, each row the tuple of its cells in column order. -/
def dfRows {α : Type} (df : DataFrame α) : List (List α) :=
  (df.map Prod.snd).transpose

/-- Embeds `synthetic_data[self.df.columns]` in `identify_row_overlap`:
reorder the columns of the synthetic dataframe to match the column order of
the original dataframe. -/
def alignColumns {α : Type} (df syn : DataFrame α) : DataFrame α :=
  (DataFrame.columns df).map (fun c => (c, DataFrame.getCol syn c))

/-- The message of a Python `ZeroDivisionError`. -/
def zeroDivisionError : String := "ZeroDivisionError: division by zero"

deriving instance DecidableEq for Except

/-- One row of the result of `identify_column_overlap`: the fields
Column, Overlap Count, Total Unique Values, Overlap Ratio. -/
structure OverlapRow where
  column : String
  overlapCount : Nat
  totalUnique : Nat
  overlapRatio : Rat
  deriving DecidableEq

/-- The body of the per-column loop of `identify_column_overlap`
(SynthLeader.py lines 535-555): intersection and union of the two value
sets, and the ratio; the division raises when the union is empty. -/
def columnOverlapEntry {α : Type} [DecidableEq α] (column : String)
    (original_values synthetic_values : List α) : Except String OverlapRow :=
  let overlap := original_values.toFinset ∩ synthetic_values.toFinset
  let overlap_count := overlap.card
  let total_unique := (original_values.toFinset ∪ synthetic_values.toFinset).card
  if total_unique = 0 then Except.error zeroDivisionError
  else Except.ok
    { column := column
      overlapCount := overlap_count
      totalUnique := total_unique
      overlapRatio := (overlap_count : Rat) / (total_unique : Rat) }

/-- The loop of `identify_column_overlap` over the list of columns to check;
an exception raised at one column aborts the whole call. -/
def columnOverlapLoop {α : Type} [DecidableEq α] (df synthetic_data : DataFrame α) :
    List String → Except String (List OverlapRow)
  | [] => Except.ok []
  | column :: rest =>
    match columnOverlapEntry column (DataFrame.getCol df column)
        (DataFrame.getCol synthetic_data column) with
    | Except.error e => Except.error e
    | Except.ok r =>
      match columnOverlapLoop df synthetic_data rest with
      | Except.error e => Except.error e
      | Except.ok rs => Except.ok (r :: rs)

/-- Embeds `SynthLeader.identify_column_overlap` (lines 512-560): one overlap row
per column of the original dataframe. -/
def identify_column_overlap {α : Type} [DecidableEq α] (df synthetic_data : DataFrame α) :
    Except String (List OverlapRow) :=
  columnOverlapLoop df synthetic_data (DataFrame.columns df)

/-- The single result row of `identify_row_overlap`: Overlap Count,
Total Unique Rows, Overlap Ratio. -/
structure RowOverlapRow where
  overlapCount : Nat
  totalUniqueRows : Nat
  overlapRatio : Rat
  deriving DecidableEq

/-- Embeds `SynthLeader.identify_row_overlap` (lines 562-605): align the synthetic
columns to the original column order, form the set of row tuples on each
side, and compute count, total and ratio of the intersection over the
union; the division raises when the union is empty. -/
def identify_row_overlap {α : Type} [DecidableEq α] (df synthetic_data : DataFrame α) :
    Except String RowOverlapRow :=
  let synthetic_aligned := alignColumns df synthetic_data
  let original_set := (dfRows df).toFinset
  let synthetic_set := (dfRows synthetic_aligned).toFinset
  let overlap := original_set ∩ synthetic_set
  let overlap_count := overlap.card
  let total_unique_rows := (original_set ∪ synthetic_set).card
  if total_unique_rows = 0 then Except.error zeroDivisionError
  else Except.ok
    { overlapCount := overlap_count
      totalUniqueRows := total_unique_rows
      overlapRatio := (overlap_count : Rat) / (total_unique_rows : Rat) }

/-- The pac-selection loop of `train_ctgan_synthesizer` (lines 238-243):
`pac = 10`, then the first of (10, 8) dividing `batch_size` replaces it. -/
def train_ctgan_synthesizer_pac (batch_size : Int) : Int :=
  if batch_size % 10 = 0 then 10
  else if batch_size % 8 = 0 then 8
  else 10

/-- The pac-selection loop of `train_copula_gan_synthesizer`
(lines 269-274), textually identical to the CTGAN one. -/
def train_copula_gan_synthesizer_pac (batch_size : Int) : Int :=
  if batch_size % 10 = 0 then 10
  else if batch_size % 8 = 0 then 8
  else 10

/-- The action `train_synthesizer` ends in: loading a saved model, or
constructing, fitting and saving one. -/
inductive TrainResult where
  | loaded (path : String)
  | trainedAndSaved (path : String)
  deriving DecidableEq

/-- Embeds `SynthLeader.train_synthesizer` (lines 178-218): raise when
`models_dir` is unset; load the model at `models_dir / model_name` when it
exists and `force` is false; train, fit and save otherwise; raise when no
model name was given.  `file_exists` is the file-system oracle for
`model_path.exists()`. -/
def train_synthesizer (models_dir : Option String) (model_name : String)
    (force : Bool) (file_exists : String → Bool) : Except String TrainResult :=
  match models_dir with
  | none => Except.error "models_dir is not set. Please specify a directory for saving models."
  | some dir =>
    let model_path : Option String :=
      if model_name = "" then none else some (dir ++ "/" ++ model_name)
    match model_path with
    | some p =>
      if file_exists p && !force then Except.ok (TrainResult.loaded p)
      else Except.ok (TrainResult.trainedAndSaved p)
    | none => Except.error "Model name must be provided to train or load a model."

/-- The action `run_diagnostic` / `run_evaluation` end in: loading a cached
report, or computing one and saving it. -/
inductive ReportResult where
  | loadedReport (path : String)
  | computedAndSaved (path : String)
  deriving DecidableEq

/-- Embeds `SynthLeader.run_diagnostic` (lines 334-351): cached by the report file
`report_dir / "diagnostic_" + model_name`. -/
def run_diagnostic (report_dir model_name : String)
    (file_exists : String → Bool) : ReportResult :=
  let report_file := report_dir ++ "/diagnostic_" ++ model_name
  if file_exists report_file then ReportResult.loadedReport report_file
  else ReportResult.computedAndSaved report_file

/-- Embeds `SynthLeader.run_evaluation` (lines 353-369): cached by the report file
`report_dir / "quality_" + model_name`. -/
def run_evaluation (report_dir model_name : String)
    (file_exists : String → Bool) : ReportResult :=
  let report_file := report_dir ++ "/quality_" ++ model_name
  if file_exists report_file then ReportResult.loadedReport report_file
  else ReportResult.computedAndSaved report_file

/-- The delegate `_get_evaluation_report` dispatches to via `function_map`. -/
inductive EvalDelegate where
  | runDiagnosticFn
  | evaluateQualityFn
  deriving DecidableEq

/-- Embeds `SynthLeader._get_evaluation_report` (lines 308-332): raise unless
`report_type` is diagnostic or quality, else dispatch through
`function_map`. -/
def get_evaluation_report (report_type : String) : Except String EvalDelegate :=
  if ¬ (report_type = "diagnostic" ∨ report_type = "quality") then
    Except.error "report_type must be diagnostic or quality"
  else if report_type = "diagnostic" then Except.ok EvalDelegate.runDiagnosticFn
  else Except.ok EvalDelegate.evaluateQualityFn

/-- Embeds `SynthLeader.visualize_evaluation` (lines 401-438): raise when
`figures_dir` is unset, else return the list of saved plot paths under
`figures_dir / evaluations / data_name`. -/
def visualize_evaluation (figures_dir : Option String) (data_name : String) :
    Except String (List String) :=
  match figures_dir with
  | none => Except.error "figures_dir is not set. Please specify a directory for saving figures."
  | some dir =>
    let eval_folder := dir ++ "/evaluations/" ++ data_name
    Except.ok
      [eval_folder ++ "/mean_std.png",
       eval_folder ++ "/cumsums.png",
       eval_folder ++ "/distributions.png",
       eval_folder ++ "/correlation_difference.png",
       eval_folder ++ "/pca.png"]

/-- Embeds `SynthLeader.visualize_data` (lines 440-493): raise when `figures_dir`
is unset, else build the subplot figure (abstracted to the evaluation
folder and the number of column plots drawn). -/
def visualize_data (figures_dir : Option String) (data_name : String)
    (column_names : List String) : Except String (String × Nat) :=
  match figures_dir with
  | none => Except.error "figures_dir is not set. Please specify a directory for saving figures."
  | some dir => Except.ok (dir ++ "/evaluations/" ++ data_name, column_names.length)

/-- C6: on the concrete input where the real column A holds [1,2,3] and the
synthetic column A holds [2,3,4], `identify_column_overlap` reports for A an
Overlap Count of 2, Total Unique Values of 4 and Overlap Ratio 0.5. -/
theorem c6_concrete_column_overlap :
    identify_column_overlap [("A", [(1 : Int), 2, 3])] [("A", [(2 : Int), 3, 4])] =
      Except.ok [{ column := "A", overlapCount := 2, totalUnique := 4, overlapRatio := 1/2 }] := by
  have hc : (([1, 2, 3] : List Int).toFinset ∩ ([2, 3, 4] : List Int).toFinset).card = 2 := by
    decide
  have hu : (([1, 2, 3] : List Int).toFinset ∪ ([2, 3, 4] : List Int).toFinset).card = 4 := by
    decide
  simp [identify_column_overlap, columnOverlapLoop, columnOverlapEntry, DataFrame.columns,
    DataFrame.getCol, List.lookup, hc, hu]
  norm_num

/-- C10: in both GAN trainers the pac parameter is 10 when 10 divides
`batch_size`, otherwise 8 when 8 divides it, otherwise 10 again; at the
default `batch_size` of 512 it is 8. -/
theorem c10_pac_selection (batch_size : Int) :
    (batch_size % 10 = 0 →
      train_ctgan_synthesizer_pac batch_size = 10 ∧
      train_copula_gan_synthesizer_pac batch_size = 10) ∧
    (batch_size % 10 ≠ 0 → batch_size % 8 = 0 →
      train_ctgan_synthesizer_pac batch_size = 8 ∧
      train_copula_gan_synthesizer_pac batch_size = 8) ∧
    (batch_size % 10 ≠ 0 → batch_size % 8 ≠ 0 →
      train_ctgan_synthesizer_pac batch_size = 10 ∧
      train_copula_gan_synthesizer_pac batch_size = 10) ∧
    (train_ctgan_synthesizer_pac 512 = 8 ∧ train_copula_gan_synthesizer_pac 512 = 8) := by
  unfold train_ctgan_synthesizer_pac train_copula_gan_synthesizer_pac
  refine ⟨fun h => ?_, fun h1 h2 => ?_, fun h1 h2 => ?_, by decide⟩
  · simp [h]
  · simp [h1, h2]
  · simp [h1, h2]

/-- Witness for C10 at the default batch size 512. -/
theorem c10_pac_selection_witness :
    train_ctgan_synthesizer_pac 512 = 8 ∧ train_copula_gan_synthesizer_pac 512 = 8 :=
  (c10_pac_selection 512).2.1 (by decide) (by decide)

/-- Unpacking a successful per-column entry: the field values and the
non-emptiness of the union that the division needs. -/
theorem columnOverlapEntry_ok {α : Type} [DecidableEq α] {c : String} {a b : List α}
    {r : OverlapRow} (h : columnOverlapEntry c a b = Except.ok r) :
    r.column = c ∧
    r.overlapCount = (a.toFinset ∩ b.toFinset).card ∧
    r.totalUnique = (a.toFinset ∪ b.toFinset).card ∧
    (a.toFinset ∪ b.toFinset).card ≠ 0 ∧
    r.overlapRatio = ((a.toFinset ∩ b.toFinset).card : Rat) / ((a.toFinset ∪ b.toFinset).card : Rat) := by
  unfold columnOverlapEntry at h
  dsimp only at h
  split at h
  · exact Except.noConfusion h
  · next hne =>
    injection h with h
    subst h
    exact ⟨rfl, rfl, rfl, hne, rfl⟩

/-- A failing per-column entry always carries the zero-division message. -/
theorem columnOverlapEntry_error {α : Type} [DecidableEq α] {c : String} {a b : List α}
    {e : String} (h : columnOverlapEntry c a b = Except.error e) : e = zeroDivisionError := by
  unfold columnOverlapEntry at h
  dsimp only at h
  split at h
  · injection h with h
    exact h.symm
  · exact Except.noConfusion h

/-- Every checked column of a successful run contributes its entry to the
result list. -/
theorem columnOverlapLoop_ok_mem {α : Type} [DecidableEq α] (df syn : DataFrame α)
    (cs : List String) :
    ∀ {rows : List OverlapRow}, columnOverlapLoop df syn cs = Except.ok rows →
    ∀ {c : String}, c ∈ cs →
    ∃ r ∈ rows, columnOverlapEntry c (DataFrame.getCol df c) (DataFrame.getCol syn c) = Except.ok r := by
  induction cs with
  | nil =>
    intro rows _ c hc
    exact absurd hc (List.not_mem_nil c)
  | cons c0 rest ih =>
    intro rows h c hc
    simp only [columnOverlapLoop] at h
    cases he : columnOverlapEntry c0 (DataFrame.getCol df c0) (DataFrame.getCol syn c0) with
    | error e =>
      rw [he] at h
      exact Except.noConfusion h
    | ok r0 =>
      rw [he] at h
      cases hl : columnOverlapLoop df syn rest with
      | error e =>
        rw [hl] at h
        exact Except.noConfusion h
      | ok rs =>
        rw [hl] at h
        injection h with h
        subst h
        rcases List.mem_cons.mp hc with hceq | hcrest
        · subst hceq
          exact ⟨r0, List.mem_cons_self r0 rs, he⟩
        · obtain ⟨r, hr, hre⟩ := ih hl hcrest
          exact ⟨r, List.mem_cons_of_mem r0 hr, hre⟩

/-- Every row of a successful result list is the entry of some checked
column. -/
theorem columnOverlapLoop_mem_ok {α : Type} [DecidableEq α] (df syn : DataFrame α)
    (cs : List String) :
    ∀ {rows : List OverlapRow}, columnOverlapLoop df syn cs = Except.ok rows →
    ∀ {r : OverlapRow}, r ∈ rows →
    ∃ c ∈ cs, columnOverlapEntry c (DataFrame.getCol df c) (DataFrame.getCol syn c) = Except.ok r := by
  induction cs with
  | nil =>
    intro rows h r hr
    simp only [columnOverlapLoop] at h
    injection h with h
    subst h
    exact absurd hr (List.not_mem_nil r)
  | cons c0 rest ih =>
    intro rows h r hr
    simp only [columnOverlapLoop] at h
    cases he : columnOverlapEntry c0 (DataFrame.getCol df c0) (DataFrame.getCol syn c0) with
    | error e =>
      rw [he] at h
      exact Except.noConfusion h
    | ok r0 =>
      rw [he] at h
      cases hl : columnOverlapLoop df syn rest with
      | error e =>
        rw [hl] at h
        exact Except.noConfusion h
      | ok rs =>
        rw [hl] at h
        injection h with h
        subst h
        rcases List.mem_cons.mp hr with hreq | hrrest
        · subst hreq
          exact ⟨c0, List.mem_cons_self c0 rest, he⟩
        · obtain ⟨c, hcmem, hce⟩ := ih hl hrrest
          exact ⟨c, List.mem_cons_of_mem c0 hcmem, hce⟩

/-- A failing loop always carries the zero-division message. -/
theorem columnOverlapLoop_error_eq {α : Type} [DecidableEq α] (df syn : DataFrame α)
    (cs : List String) :
    ∀ {e : String}, columnOverlapLoop df syn cs = Except.error e → e = zeroDivisionError := by
  induction cs with
  | nil =>
    intro e h
    simp only [columnOverlapLoop] at h
    exact Except.noConfusion h
  | cons c0 rest ih =>
    intro e h
    simp only [columnOverlapLoop] at h
    cases he : columnOverlapEntry c0 (DataFrame.getCol df c0) (DataFrame.getCol syn c0) with
    | error e0 =>
      rw [he] at h
      injection h with h
      subst h
      exact columnOverlapEntry_error he
    | ok r0 =>
      rw [he] at h
      cases hl : columnOverlapLoop df syn rest with
      | error e1 =>
        rw [hl] at h
        injection h with h
        subst h
        exact ih hl
      | ok rs =>
        rw [hl] at h
        exact Except.noConfusion h

/-- One failing column makes the whole loop fail with the zero-division
message. -/
theorem columnOverlapLoop_error_of_mem {α : Type} [DecidableEq α] (df syn : DataFrame α)
    (cs : List String) {c : String} (hc : c ∈ cs)
    (he : columnOverlapEntry c (DataFrame.getCol df c) (DataFrame.getCol syn c) =
      Except.error zeroDivisionError) :
    columnOverlapLoop df syn cs = Except.error zeroDivisionError := by
  cases hl : columnOverlapLoop df syn cs with
  | ok rows =>
    obtain ⟨r, _, hre⟩ := columnOverlapLoop_ok_mem df syn cs hl hc
    rw [he] at hre
    exact Except.noConfusion hre
  | error e =>
    rw [columnOverlapLoop_error_eq df syn cs hl]

/-- The reported ratio of a successful entry lies between 0 and 1. -/
theorem columnOverlapEntry_ratio_bounds {α : Type} [DecidableEq α] {c : String}
    {a b : List α} {r : OverlapRow} (h : columnOverlapEntry c a b = Except.ok r) :
    0 ≤ r.overlapRatio ∧ r.overlapRatio ≤ 1 := by
  obtain ⟨-, -, -, hne, hratio⟩ := columnOverlapEntry_ok h
  have hpos : (0 : Rat) < ((a.toFinset ∪ b.toFinset).card : Rat) := by
    exact_mod_cast Nat.pos_of_ne_zero hne
  constructor
  · rw [hratio]
    exact div_nonneg (Nat.cast_nonneg _) (Nat.cast_nonneg _)
  · rw [hratio, div_le_one hpos]
    exact_mod_cast Finset.card_le_card Finset.inter_subset_union

/-- The reported ratio of a successful entry is 1 exactly when the two value
sets coincide. -/
theorem columnOverlapEntry_ratio_one_iff {α : Type} [DecidableEq α] {c : String}
    {a b : List α} {r : OverlapRow} (h : columnOverlapEntry c a b = Except.ok r) :
    (r.overlapRatio = 1 ↔ a.toFinset = b.toFinset) := by
  obtain ⟨-, -, -, hne, hratio⟩ := columnOverlapEntry_ok h
  have hpos : (0 : Rat) < ((a.toFinset ∪ b.toFinset).card : Rat) := by
    exact_mod_cast Nat.pos_of_ne_zero hne
  rw [hratio, div_eq_one_iff_eq (ne_of_gt hpos)]
  constructor
  · intro he
    have hcard : (a.toFinset ∩ b.toFinset).card = (a.toFinset ∪ b.toFinset).card := by
      exact_mod_cast he
    have hsame : a.toFinset ∩ b.toFinset = a.toFinset ∪ b.toFinset :=
      Finset.eq_of_subset_of_card_le Finset.inter_subset_union (le_of_eq hcard.symm)
    apply Finset.Subset.antisymm
    · intro x hx
      have hx2 : x ∈ a.toFinset ∪ b.toFinset := Finset.mem_union_left _ hx
      rw [← hsame] at hx2
      exact (Finset.mem_inter.mp hx2).2
    · intro x hx
      have hx2 : x ∈ a.toFinset ∪ b.toFinset := Finset.mem_union_right _ hx
      rw [← hsame] at hx2
      exact (Finset.mem_inter.mp hx2).1
  · intro he
    rw [he, Finset.inter_self, Finset.union_self]

/-- The reported ratio of a successful entry is 0 exactly when the two value
sets are disjoint; the success of the division already forces at least one
of them to be non-empty. -/
theorem columnOverlapEntry_ratio_zero_iff {α : Type} [DecidableEq α] {c : String}
    {a b : List α} {r : OverlapRow} (h : columnOverlapEntry c a b = Except.ok r) :
    (r.overlapRatio = 0 ↔
      Disjoint a.toFinset b.toFinset ∧ (a.toFinset.Nonempty ∨ b.toFinset.Nonempty)) := by
  obtain ⟨-, -, -, hne, hratio⟩ := columnOverlapEntry_ok h
  have hposn : 0 < (a.toFinset ∪ b.toFinset).card := Nat.pos_of_ne_zero hne
  have hnonempty : a.toFinset.Nonempty ∨ b.toFinset.Nonempty := by
    obtain ⟨x, hx⟩ := Finset.card_pos.mp hposn
    rcases Finset.mem_union.mp hx with hx | hx
    · exact Or.inl ⟨x, hx⟩
    · exact Or.inr ⟨x, hx⟩
  have hpos : (0 : Rat) < ((a.toFinset ∪ b.toFinset).card : Rat) := by
    exact_mod_cast hposn
  constructor
  · intro h0
    rw [hratio] at h0
    rcases div_eq_zero_iff.mp h0 with hi | hu
    · have hi2 : (a.toFinset ∩ b.toFinset).card = 0 := by exact_mod_cast hi
      exact ⟨Finset.disjoint_iff_inter_eq_empty.mpr (Finset.card_eq_zero.mp hi2), hnonempty⟩
    · exact absurd hu (ne_of_gt hpos)
  · intro hd
    rw [hratio, Finset.disjoint_iff_inter_eq_empty.mp hd.1]
    simp

/-- C1: for dataframes sharing column `c`, `identify_column_overlap` reports
for `c` an Overlap Count equal to the cardinality of the intersection of the
two value sets, Total Unique Values equal to the cardinality of their union,
and an Overlap Ratio equal to their quotient, which lies in [0, 1]. -/
theorem c1_column_overlap_ratio {α : Type} [DecidableEq α] (df syn : DataFrame α)
    (c : String) (rows : List OverlapRow)
    (hdf : c ∈ DataFrame.columns df) (_hsyn : c ∈ DataFrame.columns syn)
    (h : identify_column_overlap df syn = Except.ok rows) :
    ∃ r ∈ rows, r.column = c ∧
      r.overlapCount = ((DataFrame.getCol df c).toFinset ∩ (DataFrame.getCol syn c).toFinset).card ∧
      r.totalUnique = ((DataFrame.getCol df c).toFinset ∪ (DataFrame.getCol syn c).toFinset).card ∧
      r.overlapRatio =
        (((DataFrame.getCol df c).toFinset ∩ (DataFrame.getCol syn c).toFinset).card : Rat) /
          (((DataFrame.getCol df c).toFinset ∪ (DataFrame.getCol syn c).toFinset).card : Rat) ∧
      0 ≤ r.overlapRatio ∧ r.overlapRatio ≤ 1 := by
  obtain ⟨r, hr, hre⟩ := columnOverlapLoop_ok_mem df syn (DataFrame.columns df) h hdf
  obtain ⟨h1, h2, h3, -, h5⟩ := columnOverlapEntry_ok hre
  obtain ⟨h6, h7⟩ := columnOverlapEntry_ratio_bounds hre
  exact ⟨r, hr, h1, h2, h3, h5, h6, h7⟩

/-- Witness for C1 on a one-column dataframe with itself. -/
theorem c1_column_overlap_ratio_witness :
    ∃ r ∈ [({ column := "A", overlapCount := 1, totalUnique := 1, overlapRatio := 1 } : OverlapRow)],
      r.column = "A" ∧
      r.overlapCount = ((DataFrame.getCol [("A", [(1 : Int)])] "A").toFinset ∩
        (DataFrame.getCol [("A", [(1 : Int)])] "A").toFinset).card ∧
      r.totalUnique = ((DataFrame.getCol [("A", [(1 : Int)])] "A").toFinset ∪
        (DataFrame.getCol [("A", [(1 : Int)])] "A").toFinset).card ∧
      r.overlapRatio =
        (((DataFrame.getCol [("A", [(1 : Int)])] "A").toFinset ∩
          (DataFrame.getCol [("A", [(1 : Int)])] "A").toFinset).card : Rat) /
          (((DataFrame.getCol [("A", [(1 : Int)])] "A").toFinset ∪
            (DataFrame.getCol [("A", [(1 : Int)])] "A").toFinset).card : Rat) ∧
      0 ≤ r.overlapRatio ∧ r.overlapRatio ≤ 1 :=
  c1_column_overlap_ratio [("A", [(1 : Int)])] [("A", [(1 : Int)])] "A" _
    (by simp [DataFrame.columns]) (by simp [DataFrame.columns]) (by
      have hc : (([1] : List Int).toFinset ∩ ([1] : List Int).toFinset).card = 1 := by decide
      have hu : (([1] : List Int).toFinset ∪ ([1] : List Int).toFinset).card = 1 := by decide
      simp [identify_column_overlap, columnOverlapLoop, columnOverlapEntry, DataFrame.columns,
        DataFrame.getCol, List.lookup, hc, hu])

/-- C3: a reported Overlap Ratio equals 1 exactly when the two sets of
unique column values are identical. -/
theorem c3_ratio_one_iff_identical {α : Type} [DecidableEq α] (df syn : DataFrame α)
    (c : String) (rows : List OverlapRow) (r : OverlapRow)
    (h : identify_column_overlap df syn = Except.ok rows) (hr : r ∈ rows)
    (hrc : r.column = c) :
    (r.overlapRatio = 1 ↔
      (DataFrame.getCol df c).toFinset = (DataFrame.getCol syn c).toFinset) := by
  obtain ⟨c2, -, hre⟩ := columnOverlapLoop_mem_ok df syn (DataFrame.columns df) h hr
  have hcc : c2 = c := by
    rw [← hrc, (columnOverlapEntry_ok hre).1]
  subst hcc
  exact columnOverlapEntry_ratio_one_iff hre

/-- Witness for C3 on a one-column dataframe with itself. -/
theorem c3_ratio_one_iff_identical_witness :
    (({ column := "A", overlapCount := 1, totalUnique := 1, overlapRatio := 1 } : OverlapRow).overlapRatio = 1 ↔
      (DataFrame.getCol [("A", [(2 : Int)])] "A").toFinset =
        (DataFrame.getCol [("A", [(2 : Int)])] "A").toFinset) :=
  c3_ratio_one_iff_identical [("A", [(2 : Int)])] [("A", [(2 : Int)])] "A"
    [{ column := "A", overlapCount := 1, totalUnique := 1, overlapRatio := 1 }]
    { column := "A", overlapCount := 1, totalUnique := 1, overlapRatio := 1 }
    (by
      have hc : (([2] : List Int).toFinset ∩ ([2] : List Int).toFinset).card = 1 := by decide
      have hu : (([2] : List Int).toFinset ∪ ([2] : List Int).toFinset).card = 1 := by decide
      simp [identify_column_overlap, columnOverlapLoop, columnOverlapEntry, DataFrame.columns,
        DataFrame.getCol, List.lookup, hc, hu])
    (List.mem_singleton.mpr rfl) rfl

/-- C4 counterexample: with real column A empty and synthetic column A = [1]
the reported Overlap Ratio is 0 while the real value set is empty, so a
ratio of 0 does not require both sets of unique values to be non-empty. -/
theorem c4_counterexample :
    identify_column_overlap [("A", ([] : List Int))] [("A", [(1 : Int)])] =
      Except.ok [{ column := "A", overlapCount := 0, totalUnique := 1, overlapRatio := 0 }] ∧
    ¬ (DataFrame.getCol [("A", ([] : List Int))] "A").toFinset.Nonempty := by
  constructor
  · have hc : (([] : List Int).toFinset ∩ ([1] : List Int).toFinset).card = 0 := by decide
    have hu : (([] : List Int).toFinset ∪ ([1] : List Int).toFinset).card = 1 := by decide
    simp [identify_column_overlap, columnOverlapLoop, columnOverlapEntry, DataFrame.columns,
      DataFrame.getCol, List.lookup, hc, hu]
  · simp [DataFrame.getCol, List.lookup]

/-- C4 (amended): a reported Overlap Ratio equals 0 exactly when the two
sets of unique column values are disjoint and at least one of them is
non-empty (both empty is impossible on a successful run, where the union is
non-empty). -/
theorem c4_ratio_zero_iff_disjoint {α : Type} [DecidableEq α] (df syn : DataFrame α)
    (c : String) (rows : List OverlapRow) (r : OverlapRow)
    (h : identify_column_overlap df syn = Except.ok rows) (hr : r ∈ rows)
    (hrc : r.column = c) :
    (r.overlapRatio = 0 ↔
      Disjoint (DataFrame.getCol df c).toFinset (DataFrame.getCol syn c).toFinset ∧
      ((DataFrame.getCol df c).toFinset.Nonempty ∨ (DataFrame.getCol syn c).toFinset.Nonempty)) := by
  obtain ⟨c2, -, hre⟩ := columnOverlapLoop_mem_ok df syn (DataFrame.columns df) h hr
  have hcc : c2 = c := by
    rw [← hrc, (columnOverlapEntry_ok hre).1]
  subst hcc
  exact columnOverlapEntry_ratio_zero_iff hre

/-- Witness for the amended C4 on disjoint one-value columns. -/
theorem c4_ratio_zero_iff_disjoint_witness :
    (({ column := "A", overlapCount := 0, totalUnique := 2, overlapRatio := 0 } : OverlapRow).overlapRatio = 0 ↔
      Disjoint (DataFrame.getCol [("A", [(3 : Int)])] "A").toFinset
        (DataFrame.getCol [("A", [(4 : Int)])] "A").toFinset ∧
      ((DataFrame.getCol [("A", [(3 : Int)])] "A").toFinset.Nonempty ∨
        (DataFrame.getCol [("A", [(4 : Int)])] "A").toFinset.Nonempty)) :=
  c4_ratio_zero_iff_disjoint [("A", [(3 : Int)])] [("A", [(4 : Int)])] "A"
    [{ column := "A", overlapCount := 0, totalUnique := 2, overlapRatio := 0 }]
    { column := "A", overlapCount := 0, totalUnique := 2, overlapRatio := 0 }
    (by
      have hc : (([3] : List Int).toFinset ∩ ([4] : List Int).toFinset).card = 0 := by decide
      have hu : (([3] : List Int).toFinset ∪ ([4] : List Int).toFinset).card = 2 := by decide
      simp [identify_column_overlap, columnOverlapLoop, columnOverlapEntry, DataFrame.columns,
        DataFrame.getCol, List.lookup, hc, hu])
    (List.mem_singleton.mpr rfl) rfl

/-- C9: the overlap-ratio divisions are unguarded: a shared column whose two
value sets are both empty makes `identify_column_overlap` fail with a
ZeroDivisionError, and two dataframes with no rows make
`identify_row_overlap` fail the same way. -/
theorem c9_unguarded_division {α : Type} [DecidableEq α] (df syn : DataFrame α) :
    (∀ c ∈ DataFrame.columns df,
      DataFrame.getCol df c = [] → DataFrame.getCol syn c = [] →
      identify_column_overlap df syn = Except.error zeroDivisionError) ∧
    (dfRows df = [] → dfRows (alignColumns df syn) = [] →
      identify_row_overlap df syn = Except.error zeroDivisionError) := by
  constructor
  · intro c hc hdf hsyn
    apply columnOverlapLoop_error_of_mem df syn (DataFrame.columns df) hc
    rw [hdf, hsyn]
    simp [columnOverlapEntry]
  · intro h1 h2
    unfold identify_row_overlap
    dsimp only
    rw [h1, h2]
    simp

/-- Witness for C9 on one-column dataframes with no rows. -/
theorem c9_unguarded_division_witness :
    identify_column_overlap [("A", ([] : List Int))] [("A", ([] : List Int))] =
      Except.error zeroDivisionError ∧
    identify_row_overlap [("A", ([] : List Int))] [("A", ([] : List Int))] =
      Except.error zeroDivisionError :=
  ⟨(c9_unguarded_division [("A", ([] : List Int))] [("A", ([] : List Int))]).1 "A"
      (by simp [DataFrame.columns]) (by simp [DataFrame.getCol, List.lookup])
      (by simp [DataFrame.getCol, List.lookup]),
    (c9_unguarded_division [("A", ([] : List Int))] [("A", ([] : List Int))]).2
      (by decide) (by decide)⟩

/-- Unpacking a successful row-overlap run: the field values and the
non-emptiness of the union of row sets. -/
theorem identify_row_overlap_ok {α : Type} [DecidableEq α] {df syn : DataFrame α}
    {res : RowOverlapRow} (h : identify_row_overlap df syn = Except.ok res) :
    res.overlapCount = ((dfRows df).toFinset ∩ (dfRows (alignColumns df syn)).toFinset).card ∧
    res.totalUniqueRows = ((dfRows df).toFinset ∪ (dfRows (alignColumns df syn)).toFinset).card ∧
    ((dfRows df).toFinset ∪ (dfRows (alignColumns df syn)).toFinset).card ≠ 0 ∧
    res.overlapRatio = (res.overlapCount : Rat) / (res.totalUniqueRows : Rat) := by
  unfold identify_row_overlap at h
  dsimp only at h
  split at h
  · exact Except.noConfusion h
  · next hne =>
    injection h with h
    subst h
    exact ⟨rfl, rfl, hne, rfl⟩

/-- C2: `identify_row_overlap` is the intersection-over-union construction
of the column overlap applied to the row tuples of the original dataframe
and of the column-aligned synthetic dataframe; identical row sets give
Overlap Ratio 1 and disjoint row sets give Overlap Ratio 0 with Overlap
Count 0. -/
theorem c2_row_overlap_construction {α : Type} [DecidableEq α] (df syn : DataFrame α) :
    identify_row_overlap df syn =
      Except.map (fun r : OverlapRow =>
        ({ overlapCount := r.overlapCount, totalUniqueRows := r.totalUnique,
           overlapRatio := r.overlapRatio } : RowOverlapRow))
        (columnOverlapEntry "" (dfRows df) (dfRows (alignColumns df syn))) ∧
    ((dfRows df).toFinset = (dfRows (alignColumns df syn)).toFinset →
      (dfRows df).toFinset.Nonempty →
      ∃ res, identify_row_overlap df syn = Except.ok res ∧ res.overlapRatio = 1) ∧
    (Disjoint (dfRows df).toFinset (dfRows (alignColumns df syn)).toFinset →
      ((dfRows df).toFinset ∪ (dfRows (alignColumns df syn)).toFinset).Nonempty →
      ∃ res, identify_row_overlap df syn = Except.ok res ∧
        res.overlapRatio = 0 ∧ res.overlapCount = 0) := by
  refine ⟨?_, ?_, ?_⟩
  · unfold identify_row_overlap columnOverlapEntry
    dsimp only
    by_cases hz : ((dfRows df).toFinset ∪ (dfRows (alignColumns df syn)).toFinset).card = 0
    · rw [if_pos hz, if_pos hz]
      rfl
    · rw [if_neg hz, if_neg hz]
      rfl
  · intro hset hne
    have hU : (dfRows df).toFinset ∪ (dfRows (alignColumns df syn)).toFinset =
        (dfRows df).toFinset := by
      rw [← hset, Finset.union_self]
    have hI : (dfRows df).toFinset ∩ (dfRows (alignColumns df syn)).toFinset =
        (dfRows df).toFinset := by
      rw [← hset, Finset.inter_self]
    have hcard : (dfRows df).toFinset.card ≠ 0 := Finset.card_ne_zero.mpr hne
    refine ⟨{ overlapCount := (dfRows df).toFinset.card,
              totalUniqueRows := (dfRows df).toFinset.card,
              overlapRatio := ((dfRows df).toFinset.card : Rat) /
                ((dfRows df).toFinset.card : Rat) }, ?_, ?_⟩
    · unfold identify_row_overlap
      dsimp only
      rw [hU, hI, if_neg hcard]
    · exact div_self (Nat.cast_ne_zero.mpr hcard)
  · intro hd hne
    have hI : (dfRows df).toFinset ∩ (dfRows (alignColumns df syn)).toFinset = ∅ :=
      Finset.disjoint_iff_inter_eq_empty.mp hd
    have hcard : ((dfRows df).toFinset ∪ (dfRows (alignColumns df syn)).toFinset).card ≠ 0 :=
      Finset.card_ne_zero.mpr hne
    refine ⟨{ overlapCount :=
                ((dfRows df).toFinset ∩ (dfRows (alignColumns df syn)).toFinset).card,
              totalUniqueRows :=
                ((dfRows df).toFinset ∪ (dfRows (alignColumns df syn)).toFinset).card,
              overlapRatio :=
                (((dfRows df).toFinset ∩ (dfRows (alignColumns df syn)).toFinset).card : Rat) /
                  (((dfRows df).toFinset ∪ (dfRows (alignColumns df syn)).toFinset).card : Rat) },
            ?_, ?_, ?_⟩
    · unfold identify_row_overlap
      dsimp only
      rw [if_neg hcard]
    · dsimp only
      rw [hI]
      simp
    · dsimp only
      rw [hI]
      simp

/-- Witness for C2 on a one-row dataframe with itself (identical row sets,
Overlap Ratio 1). -/
theorem c2_row_overlap_construction_witness :
    ∃ res, identify_row_overlap [("A", [(1 : Int)])] [("A", [(1 : Int)])] = Except.ok res ∧
      res.overlapRatio = 1 :=
  (c2_row_overlap_construction [("A", [(1 : Int)])] [("A", [(1 : Int)])]).2.1
    (by decide) (by decide)

/-- C5: the row Overlap Count is bounded by the smaller unique row set, the
unique row sets are bounded by the raw row counts, and so the Overlap Count
is bounded by the smaller raw row count only through the unique-set bound
(duplicate rows collapse under set semantics). -/
theorem c5_overlap_count_bound {α : Type} [DecidableEq α] (df syn : DataFrame α)
    (res : RowOverlapRow) (h : identify_row_overlap df syn = Except.ok res) :
    res.overlapCount ≤
      min (dfRows df).toFinset.card (dfRows (alignColumns df syn)).toFinset.card ∧
    (dfRows df).toFinset.card ≤ (dfRows df).length ∧
    (dfRows (alignColumns df syn)).toFinset.card ≤ (dfRows (alignColumns df syn)).length ∧
    res.overlapCount ≤ min (dfRows df).length (dfRows (alignColumns df syn)).length := by
  obtain ⟨h1, -, -, -⟩ := identify_row_overlap_ok h
  have ha : res.overlapCount ≤ (dfRows df).toFinset.card := by
    rw [h1]
    exact Finset.card_le_card Finset.inter_subset_left
  have hb : res.overlapCount ≤ (dfRows (alignColumns df syn)).toFinset.card := by
    rw [h1]
    exact Finset.card_le_card Finset.inter_subset_right
  exact ⟨le_min ha hb, List.toFinset_card_le _, List.toFinset_card_le _,
    le_min (ha.trans (List.toFinset_card_le _)) (hb.trans (List.toFinset_card_le _))⟩

/-- Witness for C5 on a one-row dataframe with itself. -/
theorem c5_overlap_count_bound_witness :
    ({ overlapCount := 1, totalUniqueRows := 1, overlapRatio := 1 } : RowOverlapRow).overlapCount ≤
      min (dfRows [("A", [(5 : Int)])]).toFinset.card
        (dfRows (alignColumns [("A", [(5 : Int)])] [("A", [(5 : Int)])])).toFinset.card ∧
    (dfRows [("A", [(5 : Int)])]).toFinset.card ≤ (dfRows [("A", [(5 : Int)])]).length ∧
    (dfRows (alignColumns [("A", [(5 : Int)])] [("A", [(5 : Int)])])).toFinset.card ≤
      (dfRows (alignColumns [("A", [(5 : Int)])] [("A", [(5 : Int)])])).length ∧
    ({ overlapCount := 1, totalUniqueRows := 1, overlapRatio := 1 } : RowOverlapRow).overlapCount ≤
      min (dfRows [("A", [(5 : Int)])]).length
        (dfRows (alignColumns [("A", [(5 : Int)])] [("A", [(5 : Int)])])).length :=
  c5_overlap_count_bound [("A", [(5 : Int)])] [("A", [(5 : Int)])]
    { overlapCount := 1, totalUniqueRows := 1, overlapRatio := 1 }
    (by
      have hc : ((dfRows [("A", [(5 : Int)])]).toFinset ∩
          (dfRows (alignColumns [("A", [(5 : Int)])] [("A", [(5 : Int)])])).toFinset).card = 1 := by
        decide
      have hu : ((dfRows [("A", [(5 : Int)])]).toFinset ∪
          (dfRows (alignColumns [("A", [(5 : Int)])] [("A", [(5 : Int)])])).toFinset).card = 1 := by
        decide
      simp [identify_row_overlap, hc, hu])

/-- C7: `train_synthesizer` loads the saved model exactly when a model name
is given, the file exists and `force` is false, and otherwise (with a name)
constructs, fits and saves; `run_diagnostic` and `run_evaluation` load the
cached report exactly when the report file exists and otherwise compute and
save it. -/
theorem c7_cache_or_train (dir model_name : String) (force : Bool)
    (file_exists : String → Bool) (report_dir mn : String) :
    (model_name ≠ "" → file_exists (dir ++ "/" ++ model_name) = true →
      train_synthesizer (some dir) model_name false file_exists =
        Except.ok (TrainResult.loaded (dir ++ "/" ++ model_name))) ∧
    (model_name ≠ "" →
      (file_exists (dir ++ "/" ++ model_name) = false ∨ force = true) →
      train_synthesizer (some dir) model_name force file_exists =
        Except.ok (TrainResult.trainedAndSaved (dir ++ "/" ++ model_name))) ∧
    (file_exists (report_dir ++ "/diagnostic_" ++ mn) = true →
      run_diagnostic report_dir mn file_exists =
        ReportResult.loadedReport (report_dir ++ "/diagnostic_" ++ mn)) ∧
    (file_exists (report_dir ++ "/diagnostic_" ++ mn) = false →
      run_diagnostic report_dir mn file_exists =
        ReportResult.computedAndSaved (report_dir ++ "/diagnostic_" ++ mn)) ∧
    (file_exists (report_dir ++ "/quality_" ++ mn) = true →
      run_evaluation report_dir mn file_exists =
        ReportResult.loadedReport (report_dir ++ "/quality_" ++ mn)) ∧
    (file_exists (report_dir ++ "/quality_" ++ mn) = false →
      run_evaluation report_dir mn file_exists =
        ReportResult.computedAndSaved (report_dir ++ "/quality_" ++ mn)) := by
  refine ⟨?_, ?_, ?_, ?_, ?_, ?_⟩
  · intro hname hfe
    simp [train_synthesizer, hname, hfe]
  · intro hname hcase
    rcases hcase with hfe | hforce
    · simp [train_synthesizer, hname, hfe]
    · subst hforce
      simp [train_synthesizer, hname]
  · intro hfe
    simp [run_diagnostic, hfe]
  · intro hfe
    simp [run_diagnostic, hfe]
  · intro hfe
    simp [run_evaluation, hfe]
  · intro hfe
    simp [run_evaluation, hfe]

/-- Witness for C7 with a one-entry file system oracle. -/
theorem c7_cache_or_train_witness :
    train_synthesizer (some "models") "m.pkl" false (fun _ => true) =
      Except.ok (TrainResult.loaded ("models" ++ "/" ++ "m.pkl")) ∧
    train_synthesizer (some "models") "m.pkl" true (fun _ => true) =
      Except.ok (TrainResult.trainedAndSaved ("models" ++ "/" ++ "m.pkl")) ∧
    run_diagnostic "reports" "m" (fun _ => true) =
      ReportResult.loadedReport ("reports" ++ "/diagnostic_" ++ "m") ∧
    run_evaluation "reports" "m" (fun _ => false) =
      ReportResult.computedAndSaved ("reports" ++ "/quality_" ++ "m") :=
  ⟨(c7_cache_or_train "models" "m.pkl" false (fun _ => true) "reports" "m").1
      (by decide) rfl,
    (c7_cache_or_train "models" "m.pkl" true (fun _ => true) "reports" "m").2.1
      (by decide) (Or.inr rfl),
    (c7_cache_or_train "models" "m.pkl" true (fun _ => true) "reports" "m").2.2.1 rfl,
    (c7_cache_or_train "models" "m.pkl" true (fun _ => false) "reports" "m").2.2.2.2.2 rfl⟩

/-- With a directory and a non-empty model name, `train_synthesizer` always
returns a model (loaded or trained). -/
theorem train_synthesizer_ok_of_name {dir model_name : String} {force : Bool}
    {file_exists : String → Bool} (hname : model_name ≠ "") :
    ∃ t, train_synthesizer (some dir) model_name force file_exists = Except.ok t := by
  unfold train_synthesizer
  dsimp only
  rw [if_neg hname]
  dsimp only
  by_cases hfe : (file_exists (dir ++ "/" ++ model_name) && !force) = true
  · rw [if_pos hfe]
    exact ⟨_, rfl⟩
  · rw [if_neg hfe]
    exact ⟨_, rfl⟩

/-- C8: the only raised errors are the configuration ValueErrors, raised
exactly when the precondition is violated: `train_synthesizer` errors
exactly when `models_dir` is unset or the model name is empty,
`_get_evaluation_report` exactly when the report type is neither diagnostic
nor quality, and `visualize_evaluation` and `visualize_data` exactly when
`figures_dir` is unset. -/
theorem c8_value_errors (models_dir figures_dir : Option String)
    (model_name report_type data_name : String) (force : Bool)
    (file_exists : String → Bool) (column_names : List String) :
    ((∃ e, train_synthesizer models_dir model_name force file_exists = Except.error e) ↔
      models_dir = none ∨ model_name = "") ∧
    ((∃ e, get_evaluation_report report_type = Except.error e) ↔
      report_type ≠ "diagnostic" ∧ report_type ≠ "quality") ∧
    ((∃ e, visualize_evaluation figures_dir data_name = Except.error e) ↔
      figures_dir = none) ∧
    ((∃ e, visualize_data figures_dir data_name column_names = Except.error e) ↔
      figures_dir = none) := by
  refine ⟨?_, ?_, ?_, ?_⟩
  · constructor
    · rintro ⟨e, he⟩
      cases models_dir with
      | none => exact Or.inl rfl
      | some dir =>
        by_cases hname : model_name = ""
        · exact Or.inr hname
        · obtain ⟨t, ht⟩ := train_synthesizer_ok_of_name hname
          rw [ht] at he
          exact Except.noConfusion he
    · rintro (hmd | hname)
      · subst hmd
        exact ⟨_, rfl⟩
      · subst hname
        cases models_dir with
        | none => exact ⟨_, rfl⟩
        | some dir => exact ⟨_, rfl⟩
  · constructor
    · rintro ⟨e, he⟩
      unfold get_evaluation_report at he
      split at he
      · next hcond => exact not_or.mp hcond
      · split at he <;> exact Except.noConfusion he
    · rintro ⟨h1, h2⟩
      refine ⟨"report_type must be diagnostic or quality", ?_⟩
      unfold get_evaluation_report
      rw [if_pos (not_or.mpr ⟨h1, h2⟩)]
  · constructor
    · rintro ⟨e, he⟩
      cases figures_dir with
      | none => rfl
      | some dir => exact Except.noConfusion he
    · intro hfd
      subst hfd
      exact ⟨_, rfl⟩
  · constructor
    · rintro ⟨e, he⟩
      cases figures_dir with
      | none => rfl
      | some dir => exact Except.noConfusion he
    · intro hfd
      subst hfd
      exact ⟨_, rfl⟩

/-- Witness for C8 at unset directories, an empty model name and an invalid
report type. -/
theorem c8_value_errors_witness :
    (∃ e, train_synthesizer none "m.pkl" false (fun _ => true) = Except.error e) ∧
    (∃ e, train_synthesizer (some "models") "" false (fun _ => true) = Except.error e) ∧
    (∃ e, get_evaluation_report "summary" = Except.error e) ∧
    (∃ e, visualize_evaluation none "d" = Except.error e) ∧
    (∃ e, visualize_data none "d" ["A"] = Except.error e) :=
  ⟨((c8_value_errors none none "m.pkl" "summary" "d" false (fun _ => true) ["A"]).1).mpr
      (Or.inl rfl),
    ((c8_value_errors (some "models") none "" "summary" "d" false (fun _ => true) ["A"]).1).mpr
      (Or.inr rfl),
    ((c8_value_errors none none "m.pkl" "summary" "d" false (fun _ => true) ["A"]).2.1).mpr
      (by decide),
    ((c8_value_errors none none "m.pkl" "summary" "d" false (fun _ => true) ["A"]).2.2.1).mpr rfl,
    ((c8_value_errors none none "m.pkl" "summary" "d" false (fun _ => true) ["A"]).2.2.2).mpr rfl⟩
